import Mathlib

set_option maxRecDepth 100000

/-!
# Verification of the arcade-shooter core (game_start_ver.py)

Shallow embedding of the simulation core of the repository: rectangles and
the pygame rectangle-overlap test, the QuadTree spatial index, the entity
records (player, bullet, enemy, boss), the per-tick collision resolution
(Game.check_collisions), level progression (Game.level_complete,
Game.spawn_enemies) and the GameOver / Victory transitions.

Modelling conventions:
- pygame integer rectangles become records of integers (x, y, width, height);
  rect.left = x, rect.right = x + w, rect.top = y, rect.bottom = y + h.
- QuadTree boundaries are produced by repeated exact halving of machine
  floats in the source; they are represented exactly by dyadic rationals
  (an integer numerator with a power-of-two denominator).
- Millisecond timers accumulate the float 1000 / FPS per tick in the source.
  Every double is an exact dyadic rational, and one float addition is the
  exact dyadic sum rounded to 53 significant bits with ties to even, which
  the embedding performs literally (flAdd); the per-tick increment is the
  double closest to 1000 / 60, namely 4691249611844267 / 2^48.  The rounding
  matters: 60 accumulated steps reach only 999.9999999999991 ms and 180
  steps only 2999.999999999995 ms, so the boss attack timer first reaches
  its 1000 ms delay on the 61st update and the shield its 3000 ms duration
  on the 181st.
- Randomness (enemy spawn positions, the 10 percent upgrade drop) is passed
  in explicitly as oracle streams, since the simulation consumes one sample
  per event.
- The trigonometric boss movement (math.sin / math.cos of the pattern timer)
  is abstracted as function parameters of the boss update; no claim below
  depends on the value of the sine.
- Group membership of sprites is an alive flag: pygame kill removes the
  sprite from its groups, but other structures (the per-tick quadtree) keep
  holding the object, which the embedding mirrors by keeping dead records
  in the store.
-/

namespace GameVer

/-- Powers of two, written so that the kernel evaluates them structurally. -/
def pow2 : ℕ → ℤ
  | 0 => 1
  | n + 1 => 2 * pow2 n

/-- A dyadic rational num / 2 ^ exp: the exact value of the machine floats
that the quadtree boundary arithmetic of the source produces (boundaries are
built from integers by additions and exact halvings only). -/
structure Dyadic where
  num : ℤ
  exp : ℕ
deriving DecidableEq

namespace Dyadic

/-- Embed an integer. -/
def ofInt (n : ℤ) : Dyadic := ⟨n, 0⟩

/-- Exact halving (w / 2 in the source). -/
def half (d : Dyadic) : Dyadic := ⟨d.num, d.exp + 1⟩

/-- Exact addition by going to the common power-of-two denominator. -/
def add (a b : Dyadic) : Dyadic :=
  ⟨a.num * pow2 b.exp + b.num * pow2 a.exp, a.exp + b.exp⟩

/-- Strict comparison by cross multiplication with the positive denominators. -/
def blt (a b : Dyadic) : Bool :=
  decide (a.num * pow2 b.exp < b.num * pow2 a.exp)

/-- The rational value represented. -/
def val (d : Dyadic) : ℚ := (d.num : ℚ) / (2 : ℚ) ^ d.exp

/-- Bit length of a natural number, with explicit fuel so that the kernel
evaluates it structurally (200 bits is far beyond any value reached here). -/
def bitLen : ℕ → ℕ → ℕ
  | 0, _ => 0
  | fuel + 1, n => if n = 0 then 0 else bitLen fuel (n / 2) + 1

/-- Round a positive dyadic value to the nearest IEEE double (53 significant
bits, ties to even).  In the positive normal range of the timer values this
is exactly the rounding the hardware performs after each float addition;
values of at most 53 significant bits, and zero, pass through unchanged. -/
def roundDouble (s : Dyadic) : Dyadic :=
  if s.num ≤ 0 then s
  else
    let n := s.num.toNat
    let L := bitLen 200 n
    if L ≤ 53 then s
    else
      let shift := L - 53
      let q := n / 2 ^ shift
      let r := n % 2 ^ shift
      let half := 2 ^ (shift - 1)
      let q2 := if r < half then q
                else if half < r then q + 1
                else if q % 2 = 0 then q else q + 1
      if shift ≤ s.exp then (⟨(q2 : ℤ), s.exp - shift⟩ : Dyadic)
      else ⟨(q2 : ℤ) * (2 : ℤ) ^ (shift - s.exp), 0⟩

end Dyadic

/-- One float addition: the exact dyadic sum, rounded to the nearest double.
This reproduces the IEEE accumulation the source performs on its timers. -/
def flAdd (a b : Dyadic) : Dyadic := (a.add b).roundDouble

/-- The IEEE double closest to 1000 / 60, i.e. the value 16.666666666666668
that one tick adds to a millisecond timer; exactly 4691249611844267 / 2^48. -/
def tickMs : Dyadic := ⟨4691249611844267, 48⟩

/-- Integer rectangle, as pygame.Rect: x = left, y = top, w = width, h = height. -/
structure Rect where
  x : ℤ
  y : ℤ
  w : ℤ
  h : ℤ
deriving DecidableEq

/-- pygame.Rect.colliderect / pygame.sprite.collide_rect: strict overlap test
(A.x < B.x + B.w and A.x + A.w > B.x and A.y < B.y + B.h and A.y + A.h > B.y). -/
def collideRect (a b : Rect) : Bool :=
  decide (a.x < b.x + b.w) && decide (b.x < a.x + a.w) &&
  decide (a.y < b.y + b.h) && decide (b.y < a.y + a.h)

/-- QuadTree boundary rectangle (dyadic coordinates, see above). -/
structure QRect where
  x : Dyadic
  y : Dyadic
  w : Dyadic
  h : Dyadic
deriving DecidableEq

/-- A boundary built directly from integers. -/
def qRectOfInt (x y w h : ℤ) : QRect :=
  ⟨.ofInt x, .ofInt y, .ofInt w, .ofInt h⟩

/-- QuadTree._intersects: non-strict boundary test,
not (rect.right < x or rect.left > x + w or rect.bottom < y or rect.top > y + h). -/
def qIntersects (b : QRect) (r : Rect) : Bool :=
  !((Dyadic.ofInt (r.x + r.w)).blt b.x ||
    (b.x.add b.w).blt (.ofInt r.x) ||
    (Dyadic.ofInt (r.y + r.h)).blt b.y ||
    (b.y.add b.h).blt (.ofInt r.y))

/-- An object held by the quadtree: the enemy id together with its rect.
The source stores object references; ids model reference identity. -/
abbrev QObj : Type := ℕ × Rect

/-- QuadTree node: boundary, capacity, held objects, and for a divided node
the four children (NW, NE, SW, SE).  A leaf is an undivided node
(divided = False in the source). -/
inductive QuadTree where
  | leaf (boundary : QRect) (capacity : ℕ) (objects : List QObj)
  | node (boundary : QRect) (capacity : ℕ) (objects : List QObj)
      (nw ne sw se : QuadTree)
deriving DecidableEq

/-- QuadTree.subdivide: the four equal quadrant boundaries (NW, NE, SW, SE). -/
def subQuads (b : QRect) : QRect × QRect × QRect × QRect :=
  (⟨b.x, b.y, b.w.half, b.h.half⟩,
   ⟨b.x.add b.w.half, b.y, b.w.half, b.h.half⟩,
   ⟨b.x, b.y.add b.h.half, b.w.half, b.h.half⟩,
   ⟨b.x.add b.w.half, b.y.add b.h.half, b.w.half, b.h.half⟩)

/-- Insertion into a freshly created (empty, undivided) child right after
subdivide.  In the source this is the recursive insert call on a child that
was just constructed: the child has no objects, so with positive capacity it
accepts the object exactly when the boundary intersects it.  (The source
would recurse without bound on capacity 0; the model is only used with the
capacity 4 of the reference system.) -/
def insertEmptyChild (b : QRect) (cap : ℕ) (o : QObj) : QuadTree × Bool :=
  if qIntersects b o.2 && decide (0 < cap) then (.leaf b cap [o], true)
  else (.leaf b cap [], false)

/-- QuadTree.insert: reject when the object rect misses the boundary, append
below capacity, otherwise subdivide (once) and try the four children in
NW, NE, SW, SE order with or-short-circuit. -/
def QuadTree.insert : QuadTree → QObj → QuadTree × Bool
  | .leaf b cap objs, o =>
    if !qIntersects b o.2 then (.leaf b cap objs, false)
    else if objs.length < cap then (.leaf b cap (objs ++ [o]), true)
    else
      let q := subQuads b
      let r1 := insertEmptyChild q.1 cap o
      if r1.2 then
        (.node b cap objs r1.1 (.leaf q.2.1 cap []) (.leaf q.2.2.1 cap [])
          (.leaf q.2.2.2 cap []), true)
      else
        let r2 := insertEmptyChild q.2.1 cap o
        if r2.2 then
          (.node b cap objs r1.1 r2.1 (.leaf q.2.2.1 cap [])
            (.leaf q.2.2.2 cap []), true)
        else
          let r3 := insertEmptyChild q.2.2.1 cap o
          if r3.2 then
            (.node b cap objs r1.1 r2.1 r3.1 (.leaf q.2.2.2 cap []), true)
          else
            let r4 := insertEmptyChild q.2.2.2 cap o
            (.node b cap objs r1.1 r2.1 r3.1 r4.1, r4.2)
  | .node b cap objs nw ne sw se, o =>
    if !qIntersects b o.2 then (.node b cap objs nw ne sw se, false)
    else if objs.length < cap then (.node b cap (objs ++ [o]) nw ne sw se, true)
    else
      let r1 := nw.insert o
      if r1.2 then (.node b cap objs r1.1 ne sw se, true)
      else
        let r2 := ne.insert o
        if r2.2 then (.node b cap objs r1.1 r2.1 sw se, true)
        else
          let r3 := sw.insert o
          if r3.2 then (.node b cap objs r1.1 r2.1 r3.1 se, true)
          else
            let r4 := se.insert o
            (.node b cap objs r1.1 r2.1 r3.1 r4.1, r4.2)

/-- QuadTree.query: return the accumulator unchanged when the query rect
misses the boundary, otherwise append the held objects whose rect strictly
overlaps the query rect and recurse into the children, accumulating in the
shared list. -/
def QuadTree.query : QuadTree → Rect → List QObj → List QObj
  | .leaf b _ objs, r, found =>
    if !qIntersects b r then found
    else found ++ objs.filter (fun o => collideRect r o.2)
  | .node b _ objs nw ne sw se, r, found =>
    if !qIntersects b r then found
    else
      let f1 := found ++ objs.filter (fun o => collideRect r o.2)
      se.query r (sw.query r (ne.query r (nw.query r f1)))

/-- The quadtree Game.check_collisions rebuilds each tick:
boundary (0, 0, SCREEN_WIDTH, SCREEN_HEIGHT), capacity 4. -/
def rootTree : QuadTree := .leaf (qRectOfInt 0 0 800 600) 4 []

/-- GameState: the top-level states of the game state machine. -/
inductive GState where
  | MENU
  | GAME
  | GAME_OVER
  | VICTORY
  | STORY
  | UPGRADE
deriving DecidableEq

/-- Difficulty payload: base enemy count, speed multiplier, health multiplier
(EASY = 5 / 1 / 1, NORMAL = 8 / 1.5 / 2, HARD = 12 / 2 / 3). -/
structure Diff where
  enemies : ℕ
  speed : ℚ
  health : ℤ
deriving DecidableEq

def EASY : Diff := ⟨5, 1, 1⟩
def NORMAL : Diff := ⟨8, 3 / 2, 2⟩
def HARD : Diff := ⟨12, 2, 3⟩

/-- An entry of the enemy store: id (reference identity), rect, health,
speed, boss flag, and the alive flag standing for group membership.
Boss-fired bullets also live in the enemy group of the source; they are
representable here as non-boss entries. -/
structure EnemyE where
  id : ℕ
  rect : Rect
  health : ℤ
  speed : ℚ
  isBoss : Bool
  alive : Bool
deriving DecidableEq

/-- A player bullet: rect, damage, alive flag (group membership). -/
structure BulletE where
  rect : Rect
  damage : ℤ
  alive : Bool
deriving DecidableEq

/-- The part of the Game object that collision resolution and level
progression read and write.  The two oracle streams feed the calls of
random.random() (upgrade drop per kill) and random.randrange (spawn
positions); nextId supplies fresh reference identities for spawned enemies. -/
structure GameSt where
  enemies : List EnemyE
  bullets : List BulletE
  playerRect : Rect
  playerHealth : ℤ
  playerMaxHealth : ℤ
  shieldActive : Bool
  score : ℤ
  highScore : ℤ
  level : ℕ
  chapter : ℕ
  diff : Diff
  state : GState
  nextId : ℕ
  upgradeOracle : List Bool
  spawnOracle : List (ℤ × ℤ)
deriving DecidableEq

/-- Game.game_over: enter GAME_OVER and raise the session high score when the
current score exceeds it. -/
def gameOverG (g : GameSt) : GameSt :=
  {g with state := .GAME_OVER,
          highScore := if g.score > g.highScore then g.score else g.highScore}

/-- Game.victory: enter VICTORY and raise the session high score when the
current score exceeds it. -/
def victoryG (g : GameSt) : GameSt :=
  {g with state := .VICTORY,
          highScore := if g.score > g.highScore then g.score else g.highScore}

/-- Build the per-tick quadtree: a fresh root, then insert every enemy of the
current enemy group. -/
def buildTree (es : List EnemyE) : QuadTree :=
  es.foldl (fun t e => if e.alive then (t.insert (e.id, e.rect)).1 else t) rootTree

/-- The body of the candidate loop of the bullet collision pass, for one
candidate returned by the quadtree query: on exact overlap subtract the
bullet damage from the (shared, possibly already dead) enemy object, and if
its health is now at or below zero add the kill score (10, times 5 for a
boss), remove it from the groups, and draw the upgrade-drop sample.  The
returned flag records that the bullet was hit (bullet.kill was called). -/
def hitCandidate (dmg : ℤ) (brect : Rect) (g : GameSt) (cid : ℕ) : GameSt × Bool :=
  match g.enemies.find? (fun e => e.id == cid) with
  | none => (g, false)
  | some e =>
    if collideRect brect e.rect then
      let g1 := {g with enemies := g.enemies.map fun x =>
        if x.id == cid then {x with health := x.health - dmg} else x}
      if e.health - dmg ≤ 0 then
        let g2 := {g1 with
          score := g1.score + 10 * (if e.isBoss then 5 else 1),
          enemies := g1.enemies.map fun (x : EnemyE) =>
            if x.id == cid then {x with alive := false} else x}
        match g2.upgradeOracle with
        | b :: rest =>
          ({g2 with upgradeOracle := rest,
                    state := if b then .UPGRADE else g2.state}, true)
        | [] => (g2, true)
      else (g1, true)
    else (g, false)

/-- One step of the candidate loop, threading the game state and the flag
that remembers whether bullet.kill was called. -/
def candStep (dmg : ℤ) (brect : Rect) (acc : GameSt × Bool) (c : QObj) : GameSt × Bool :=
  let s := hitCandidate dmg brect acc.1 c.1
  (s.1, acc.2 || s.2)

/-- One bullet of the bullet collision pass: query the (stale) per-tick
quadtree with the bullet rect, then run the candidate loop; the bullet is
killed when it registered at least one hit, but its own loop keeps running
over the remaining candidates, as in the source. -/
def processBullet (tree : QuadTree) (g : GameSt) (b : BulletE) : GameSt × BulletE :=
  let cands := tree.query b.rect []
  let r := cands.foldl (candStep b.damage b.rect) (g, false)
  (r.1, if r.2 then {b with alive := false} else b)

/-- One step of the loop over the live-bullet snapshot. -/
def bulletStep (tree : QuadTree) (acc : GameSt × List BulletE) (b : BulletE) :
    GameSt × List BulletE :=
  if b.alive then
    let pb := processBullet tree acc.1 b
    (pb.1, acc.2 ++ [pb.2])
  else (acc.1, acc.2 ++ [b])

/-- The bullet-versus-enemy half of Game.check_collisions: rebuild the
quadtree from the live enemies, then iterate over the snapshot of the live
bullet group.  Explosion particles are cosmetic and not modelled. -/
def bulletPhase (g : GameSt) : GameSt :=
  let tree := buildTree g.enemies
  let r := g.bullets.foldl (bulletStep tree) (g, [])
  {r.1 with bullets := r.2}

/-- The body of the hits loop of the player-versus-enemy pass: 20 damage per
hit, entering GAME_OVER as soon as health is at or below zero. -/
def playerHitStep (acc : GameSt) (e : EnemyE) : GameSt :=
  let acc1 := {acc with playerHealth := acc.playerHealth - 20}
  if acc1.playerHealth ≤ 0 then gameOverG acc1 else acc1

/-- The player-versus-enemy half of Game.check_collisions: skipped entirely
while the shield is active; otherwise pygame.sprite.spritecollide removes
every enemy whose rect overlaps the player rect, and for each such hit the
player loses 20 health, entering GAME_OVER as soon as health is at or below
zero. -/
def playerEnemyPhase (g : GameSt) : GameSt :=
  if g.shieldActive then g
  else
    let hits := g.enemies.filter fun e => e.alive && collideRect g.playerRect e.rect
    let g0 := {g with enemies := g.enemies.map fun e =>
      if e.alive && collideRect g.playerRect e.rect then {e with alive := false} else e}
    hits.foldl playerHitStep g0

/-- StoryManager.advance_story: move the chapter cursor and report whether a
chapter (of the five) remains. -/
def advanceStory (chapter : ℕ) : ℕ × Bool := (chapter + 1, decide (chapter + 1 < 5))

/-- Enemy.__init__ with a random position drawn from the spawn oracle:
40 x 40 rect, health = difficulty health, speed = ENEMY_SPEED (2) times the
difficulty speed multiplier. -/
def mkEnemy (d : Diff) (nid : ℕ) (pos : ℤ × ℤ) : EnemyE :=
  ⟨nid, ⟨pos.1, pos.2, 40, 40⟩, d.health, 2 * d.speed, false, true⟩

/-- Boss.__init__: spawns at (SCREEN_WIDTH // 2 - 40, -100); the rect stays
the 40 x 40 rect built by the Enemy initializer (only the image surface is
enlarged), health = 50 times the difficulty health multiplier. -/
def mkBoss (d : Diff) (nid : ℕ) : EnemyE :=
  ⟨nid, ⟨360, -100, 40, 40⟩, 50 * d.health, 2 * d.speed, true, true⟩

/-- Draw one spawn position from the oracle (random.randrange pair). -/
def popPos (orc : List (ℤ × ℤ)) : (ℤ × ℤ) × List (ℤ × ℤ) :=
  match orc with
  | p :: r => (p, r)
  | [] => ((0, 0), [])

/-- The loop of Game.spawn_enemies: for i in range(count), spawn a Boss when
the level is a multiple of 5 and i = 0, a regular Enemy otherwise.  Returns
the spawned list with the remaining oracle and the next fresh id. -/
def spawnGo (d : Diff) (lvl : ℕ) :
    ℕ → ℕ → ℕ → List (ℤ × ℤ) → List EnemyE × List (ℤ × ℤ) × ℕ
  | _, 0, nid, orc => ([], orc, nid)
  | i, rem + 1, nid, orc =>
    if lvl % 5 == 0 && i == 0 then
      let e := mkBoss d nid
      let r := spawnGo d lvl (i + 1) rem (nid + 1) orc
      (e :: r.1, r.2)
    else
      let pr := popPos orc
      let e := mkEnemy d nid pr.1
      let r := spawnGo d lvl (i + 1) rem (nid + 1) pr.2
      (e :: r.1, r.2)

/-- Game.spawn_enemies: count = difficulty base count + current level; the
spawned entities are added to the enemy and all-sprites groups. -/
def spawnEnemies (g : GameSt) : GameSt :=
  let count := g.diff.enemies + g.level
  let r := spawnGo g.diff g.level 0 count g.nextId g.spawnOracle
  {g with enemies := g.enemies ++ r.1, spawnOracle := r.2.1, nextId := r.2.2}

/-- The first lines of Game.level_complete: bump the level, heal the player
by 20 capped at max health, and every third level scale the speed of every
surviving enemy by 1.1 (at the time this runs, the enemy group is empty, so
the scaling loop has nothing to visit). -/
def levelBump (g : GameSt) : GameSt :=
  {g with
    level := g.level + 1,
    playerHealth := min g.playerMaxHealth (g.playerHealth + 20),
    enemies := if (g.level + 1) % 3 = 0 then
        g.enemies.map (fun e => if e.alive then {e with speed := e.speed * (11 / 10)} else e)
      else g.enemies}

/-- The routing of Game.level_complete after the bump: every fifth level
advance the story (the cursor always moves) and go to the Story state when a
chapter remains, otherwise spawn the next wave; on other levels always spawn
the next wave. -/
def levelRoute (h : GameSt) : GameSt :=
  if h.level % 5 = 0 then
    let a := advanceStory h.chapter
    if a.2 then {h with chapter := a.1, state := .STORY}
    else spawnEnemies {h with chapter := a.1}
  else spawnEnemies h

/-- Game.level_complete: bump and heal, route (story or next wave), and past
level 15 enter Victory regardless of the routing. -/
def levelComplete (g : GameSt) : GameSt :=
  let g2 := levelRoute (levelBump g)
  if g2.level > 15 then victoryG g2 else g2

/-- The level completion check at the end of Game.check_collisions: level
completion is triggered exactly when the enemy group is empty. -/
def levelCheck (g : GameSt) : GameSt :=
  if (g.enemies.filter fun e => e.alive).length = 0 then levelComplete g else g

/-- Game.check_collisions: bullet pass, then player pass, then the level
completion check. -/
def checkCollisions (g : GameSt) : GameSt :=
  levelCheck (playerEnemyPhase (bulletPhase g))

/-- The held state of the four movement keys. -/
structure Keys where
  left : Bool
  right : Bool
  up : Bool
  down : Bool
deriving DecidableEq

/-- The player: 50 x 40 rect at (x, y), shield flag and millisecond timer
(a float, held as its exact dyadic value), the wall-clock timestamp of the
last shot, and the fire-rate and damage upgrade multipliers. -/
structure PlayerM where
  x : ℤ
  y : ℤ
  shieldActive : Bool
  shieldTimer : Dyadic
  lastShot : ℤ
  fireRate : ℚ
  damageUp : ℚ
deriving DecidableEq

/-- Player.__init__: centered at (SCREEN_WIDTH // 2 - 25, SCREEN_HEIGHT - 50),
shield off, upgrades at 1. -/
def playerInit : PlayerM := ⟨375, 550, false, .ofInt 0, 0, 1, 1⟩

/-- The movement half of Player.update: each axis moves by
speed * speed-upgrade, gated (not clamped) by a boundary test on the current
rect; the per-move displacement is passed in as the integer step it amounts
to (5 at the default multiplier 1). -/
def playerMove (keys : Keys) (step : ℕ) (p : PlayerM) : PlayerM :=
  let x1 := if keys.left && decide (p.x > 0) then p.x - (step : ℤ) else p.x
  let x2 := if keys.right && decide (x1 + 50 < 800) then x1 + (step : ℤ) else x1
  let y1 := if keys.up && decide (p.y > 0) then p.y - (step : ℤ) else p.y
  let y2 := if keys.down && decide (y1 + 40 < 600) then y1 + (step : ℤ) else y1
  {p with x := x2, y := y2}

/-- The shield half of Player.update: while active the timer accumulates the
float 1000 / FPS ms per tick and the shield switches off when the timer has
reached the 3000 ms duration. -/
def shieldTick (p : PlayerM) : PlayerM :=
  if p.shieldActive then
    let t := flAdd p.shieldTimer tickMs
    if !(t.blt (.ofInt 3000)) then {p with shieldActive := false, shieldTimer := .ofInt 0}
    else {p with shieldTimer := t}
  else p

/-- Player.update: movement, then the shield countdown. -/
def playerUpdate (keys : Keys) (step : ℕ) (p : PlayerM) : PlayerM :=
  shieldTick (playerMove keys step p)

/-- A bullet: 5 x 15 rect at (x, y), vertical speed (positive moves up),
damage, alive flag.  Bullet.__init__ places rect.centerx and rect.bottom at
the given point. -/
structure BulletB where
  x : ℤ
  y : ℤ
  speed : ℤ
  damage : ℚ
  alive : Bool
deriving DecidableEq

/-- Bullet.update: move up by speed; the bullet is killed exactly when its
bottom has passed above the top bound. -/
def bulletUpdate (b : BulletB) : BulletB :=
  let y1 := b.y - b.speed
  if y1 + 15 < 0 then {b with y := y1, alive := false} else {b with y := y1}

/-- The boss-fired bullet of Game.run: created at the boss rect bottom
center, then its speed is negated so that it travels downward. -/
def mkBossBullet (cx bottom : ℤ) : BulletB := ⟨cx - 2, bottom - 15, -10, 10, true⟩

/-- Player.shoot: gated by the wall-clock sample now = pygame.time.get_ticks,
firing only when now - last_shot exceeds shoot_delay / fire_rate (250 ms over
the fire-rate multiplier); the new bullet starts at the player top center
with damage scaled by the damage upgrade. -/
def PlayerM.shoot (now : ℤ) (p : PlayerM) : Option BulletB × PlayerM :=
  if ((now - p.lastShot : ℤ) : ℚ) > 250 / p.fireRate then
    (some ⟨p.x + 25 - 2, p.y - 15, 10, 10 * p.damageUp, true⟩, {p with lastShot := now})
  else (none, p)

/-- The boss: rect position (the rect stays 40 x 40), movement pattern index,
pattern timer (integer ticks), attack timer (a float millisecond count, held
as its exact dyadic value; the attack delay is 1000 ms). -/
structure BossSt where
  x : ℤ
  y : ℤ
  pattern : ℕ
  patternTimer : ℤ
  attackTimer : Dyadic
deriving DecidableEq

/-- Boss.__init__ position and timers. -/
def freshBoss : BossSt := ⟨360, -100, 0, 0, .ofInt 0⟩

/-- Truncation toward zero, as the assignment of a float to a pygame rect
coordinate performs. -/
def ratTrunc (q : ℚ) : ℤ := q.num / (q.den : ℤ)

/-- Boss.update: advance the pattern timer by one and the attack timer by
the float 1000 / FPS ms; run the movement pattern (0 entrance, 1 side to
side, 2 circular; sinF and cosF abstract math.sin and math.cos of
0.05 times the pattern timer); finally, when the attack timer has reached
the 1000 ms attack delay, reset it and signal the caller to spawn a boss
bullet. -/
def bossUpdate (sinF cosF : ℤ → ℚ) (b : BossSt) : BossSt × Bool :=
  let t := b.patternTimer + 1
  let atk := flAdd b.attackTimer tickMs
  let b1 : BossSt :=
    if b.pattern = 0 then
      let y1 := b.y + 1
      if y1 > 50 then {b with patternTimer := t, attackTimer := atk, y := y1, pattern := 1}
      else {b with patternTimer := t, attackTimer := atk, y := y1}
    else if b.pattern = 1 then
      let x1 := ratTrunc ((b.x : ℚ) + sinF t * 3)
      if t > 200 then
        {b with patternTimer := 0, attackTimer := atk, x := x1, pattern := 2}
      else {b with patternTimer := t, attackTimer := atk, x := x1}
    else if b.pattern = 2 then
      let x1 := ratTrunc (400 + sinF t * 200)
      let y1 := ratTrunc (100 + cosF t * 50)
      if t > 300 then
        {b with patternTimer := 0, attackTimer := atk, x := x1, y := y1, pattern := 1}
      else {b with patternTimer := t, attackTimer := atk, x := x1, y := y1}
    else {b with patternTimer := t, attackTimer := atk}
  if !(b1.attackTimer.blt (.ofInt 1000)) then ({b1 with attackTimer := .ofInt 0}, true)
  else (b1, false)

/-- One Playing-state tick of Game.run as it acts on a boss: Boss.update is
called once through the all-sprites group update (return value dropped) and
once more in the boss-attack loop over the enemy group, whose return value
triggers the boss bullet. -/
def gameTickBoss (sinF cosF : ℤ → ℚ) (b : BossSt) : BossSt × Bool :=
  let b1 := (bossUpdate sinF cosF b).1
  bossUpdate sinF cosF b1

/-! Concrete states used by individual claims. -/

/-- A playing state with one enemy of health 10 and two live bullets of
damage 10, all three rects overlapping pairwise. -/
def c1State : GameSt :=
  { enemies := [⟨0, ⟨100, 100, 40, 40⟩, 10, 2, false, true⟩],
    bullets := [⟨⟨110, 110, 5, 15⟩, 10, true⟩, ⟨⟨112, 108, 5, 15⟩, 10, true⟩],
    playerRect := ⟨375, 550, 50, 40⟩, playerHealth := 100, playerMaxHealth := 100,
    shieldActive := false, score := 0, highScore := 0, level := 1, chapter := 0,
    diff := NORMAL, state := .GAME, nextId := 1,
    upgradeOracle := [false, false], spawnOracle := [] }

/-- Four far-away objects that fill the root node to capacity. -/
def c3Tree4 : QuadTree :=
  ((((rootTree.insert (0, ⟨0, 0, 10, 10⟩)).1.insert (1, ⟨20, 20, 10, 10⟩)).1.insert
    (2, ⟨40, 40, 10, 10⟩)).1.insert (3, ⟨60, 60, 10, 10⟩)).1

/-- A fifth object straddling the vertical midline of the screen. -/
def c3Obj : QObj := (4, ⟨390, 100, 60, 40⟩)

/-- The tree after the overflow insertion pushed c3Obj into the NW child. -/
def c3Tree : QuadTree := (c3Tree4.insert c3Obj).1

/-- A query rect overlapping c3Obj strictly right of the midline. -/
def c3QueryRect : Rect := ⟨420, 110, 10, 10⟩

/-- A playing state with the shield up and one enemy on the player. -/
def c8On : GameSt :=
  { enemies := [⟨0, ⟨380, 545, 40, 40⟩, 1, 2, false, true⟩],
    bullets := [],
    playerRect := ⟨375, 550, 50, 40⟩, playerHealth := 100, playerMaxHealth := 100,
    shieldActive := true, score := 0, highScore := 0, level := 1, chapter := 0,
    diff := EASY, state := .GAME, nextId := 1,
    upgradeOracle := [], spawnOracle := [] }

/-- The same encounter with the shield down and 20 health left. -/
def c8Off : GameSt := {c8On with shieldActive := false, playerHealth := 20}

/-- A playing state about to end: one enemy on the player, 20 health, no
shield, score 30 against a high score of 10. -/
def c9End : GameSt :=
  { enemies := [⟨0, ⟨380, 545, 40, 40⟩, 1, 2, false, true⟩],
    bullets := [],
    playerRect := ⟨375, 550, 50, 40⟩, playerHealth := 20, playerMaxHealth := 100,
    shieldActive := false, score := 30, highScore := 10, level := 1, chapter := 0,
    diff := EASY, state := .GAME, nextId := 1,
    upgradeOracle := [], spawnOracle := [] }

/-- A Normal-difficulty game at level 1 about to spawn its wave. -/
def c7g1 : GameSt :=
  { enemies := [], bullets := [],
    playerRect := ⟨375, 550, 50, 40⟩, playerHealth := 100, playerMaxHealth := 100,
    shieldActive := false, score := 0, highScore := 0, level := 1, chapter := 0,
    diff := NORMAL, state := .GAME, nextId := 0,
    upgradeOracle := [], spawnOracle := [] }

/-- A Normal-difficulty game at level 5 about to spawn its wave. -/
def c7g5 : GameSt := {c7g1 with level := 5}

/-- Only the left arrow held. -/
def keysLeft : Keys := ⟨true, false, false, false⟩

/-- No movement key held. -/
def keysNone : Keys := ⟨false, false, false, false⟩

/-- A boss-fired bullet spawned at the bottom edge of the screen. -/
def c4Bullet : BulletB := mkBossBullet 400 600

/-- One Boss.update step with the trigonometric oracle fixed to zero (the
entrance pattern of a fresh boss never consults it). -/
def bossStep (b : BossSt) : BossSt := (bossUpdate (fun _ => 0) (fun _ => 0) b).1

/-- The attack flag of the (n + 1)st Boss.update on a fresh boss. -/
def bossFireAt (n : ℕ) : Bool :=
  (bossUpdate (fun _ => 0) (fun _ => 0) (bossStep^[n] freshBoss)).2

/-- One Playing tick (two Boss.update calls) with the trig oracle at zero. -/
def gameTickStep (b : BossSt) : BossSt := (gameTickBoss (fun _ => 0) (fun _ => 0) b).1

/-- The bullet-spawning flag of the (n + 1)st Playing tick on a fresh boss. -/
def gameTickFireAt (n : ℕ) : Bool :=
  (gameTickBoss (fun _ => 0) (fun _ => 0) (gameTickStep^[n] freshBoss)).2

/-! Helper lemmas. -/

theorem shieldTick_x (p : PlayerM) : (shieldTick p).x = p.x := by
  unfold shieldTick
  dsimp only
  split_ifs <;> rfl

theorem shieldTick_y (p : PlayerM) : (shieldTick p).y = p.y := by
  unfold shieldTick
  dsimp only
  split_ifs <;> rfl

/-- One Boss.update in the entrance pattern, below the descent threshold and
below the attack delay: the pattern timer advances, the attack timer gains
one float step, the boss descends one pixel, and no attack is signalled. -/
theorem bossUpdate_entrance (sinF cosF : ℤ → ℚ) (b : BossSt)
    (hp : b.pattern = 0) (hy : ¬(b.y + 1 > 50))
    (ha : (flAdd b.attackTimer tickMs).blt (Dyadic.ofInt 1000) = true) :
    bossUpdate sinF cosF b =
      ({b with patternTimer := b.patternTimer + 1,
               attackTimer := flAdd b.attackTimer tickMs, y := b.y + 1}, false) := by
  unfold bossUpdate
  simp only [hp, if_neg hy]
  exact if_neg (by simp [ha])

/-- Raising a value to max with s twice is the same as raising once. -/
theorem highMax_idem (s h : ℤ) :
    (if s > (if s > h then s else h) then s else (if s > h then s else h))
      = (if s > h then s else h) := by
  split_ifs <;> omega

/-- One iteration of the hits loop, written as a single conditional. -/
theorem playerHitStep_spec (acc : GameSt) (e : EnemyE) :
    playerHitStep acc e =
      if acc.playerHealth - 20 ≤ 0 then
        {acc with playerHealth := acc.playerHealth - 20, state := .GAME_OVER,
                  highScore := if acc.score > acc.highScore then acc.score else acc.highScore}
      else {acc with playerHealth := acc.playerHealth - 20} := by
  unfold playerHitStep gameOverG
  dsimp only

/-- The hits loop only writes playerHealth, state and highScore. -/
theorem playerHitsFold_frame (l : List EnemyE) (g : GameSt) :
    (l.foldl playerHitStep g).enemies = g.enemies ∧
    (l.foldl playerHitStep g).bullets = g.bullets ∧
    (l.foldl playerHitStep g).score = g.score ∧
    (l.foldl playerHitStep g).level = g.level ∧
    (l.foldl playerHitStep g).chapter = g.chapter ∧
    (l.foldl playerHitStep g).playerMaxHealth = g.playerMaxHealth ∧
    (l.foldl playerHitStep g).shieldActive = g.shieldActive ∧
    (l.foldl playerHitStep g).playerRect = g.playerRect := by
  induction l generalizing g with
  | nil => exact ⟨rfl, rfl, rfl, rfl, rfl, rfl, rfl, rfl⟩
  | cons e t ih =>
    rw [List.foldl_cons, playerHitStep_spec]
    by_cases h : g.playerHealth - 20 ≤ 0
    · rw [if_pos h]; exact ih _
    · rw [if_neg h]; exact ih _

/-- The hits loop subtracts 20 health per hit. -/
theorem playerHitsFold_health (l : List EnemyE) (g : GameSt) :
    (l.foldl playerHitStep g).playerHealth = g.playerHealth - 20 * l.length := by
  induction l generalizing g with
  | nil => simp
  | cons e t ih =>
    rw [List.foldl_cons, playerHitStep_spec]
    by_cases h : g.playerHealth - 20 ≤ 0
    · rw [if_pos h, ih]
      dsimp only
      simp only [List.length_cons]
      omega
    · rw [if_neg h, ih]
      dsimp only
      simp only [List.length_cons]
      omega

/-- The hits loop enters GAME_OVER, raising the high score, exactly when at
least one hit lands and the final health is at or below zero. -/
theorem playerHitsFold_over (l : List EnemyE) (g : GameSt) :
    (l.foldl playerHitStep g).state
        = (if 0 < l.length ∧ g.playerHealth - 20 * l.length ≤ 0
           then GState.GAME_OVER else g.state) ∧
    (l.foldl playerHitStep g).highScore
        = (if 0 < l.length ∧ g.playerHealth - 20 * l.length ≤ 0
           then (if g.score > g.highScore then g.score else g.highScore)
           else g.highScore) := by
  induction l generalizing g with
  | nil => simp
  | cons e t ih =>
    rw [List.foldl_cons, playerHitStep_spec]
    have hC : (0 < (e :: t).length ∧
        g.playerHealth - 20 * ((e :: t).length : ℤ) ≤ 0) ↔
        g.playerHealth - 20 * ((t.length : ℤ) + 1) ≤ 0 := by
      simp only [List.length_cons]
      push_cast
      omega
    by_cases h : g.playerHealth - 20 ≤ 0
    · rw [if_pos h]
      obtain ⟨ihs, ihh⟩ := ih
        {g with playerHealth := g.playerHealth - 20, state := .GAME_OVER,
                highScore := if g.score > g.highScore then g.score else g.highScore}
      constructor
      · rw [ihs]
        dsimp only
        rw [ite_self, if_pos (hC.mpr (by omega))]
      · rw [ihh]
        dsimp only
        rw [highMax_idem, ite_self, if_pos (hC.mpr (by omega))]
    · rw [if_neg h]
      obtain ⟨ihs, ihh⟩ := ih {g with playerHealth := g.playerHealth - 20}
      have hC2 : (0 < t.length ∧
          ({g with playerHealth := g.playerHealth - 20}).playerHealth
            - 20 * (t.length : ℤ) ≤ 0) ↔
          (0 < (e :: t).length ∧
            g.playerHealth - 20 * ((e :: t).length : ℤ) ≤ 0) := by
        dsimp only
        simp only [List.length_cons]
        push_cast
        omega
      constructor
      · rw [ihs]
        by_cases hD : 0 < t.length ∧
            ({g with playerHealth := g.playerHealth - 20}).playerHealth
              - 20 * (t.length : ℤ) ≤ 0
        · rw [if_pos hD, if_pos (hC2.mp hD)]
        · rw [if_neg hD, if_neg (fun hx => hD (hC2.mpr hx))]
      · rw [ihh]
        by_cases hD : 0 < t.length ∧
            ({g with playerHealth := g.playerHealth - 20}).playerHealth
              - 20 * (t.length : ℤ) ≤ 0
        · rw [if_pos hD, if_pos (hC2.mp hD)]
        · rw [if_neg hD, if_neg (fun hx => hD (hC2.mpr hx))]

/-- The candidate-loop body never touches the high score or the bullet list,
and can only move the state to UPGRADE. -/
theorem hitCandidate_frame (dmg : ℤ) (brect : Rect) (g : GameSt) (cid : ℕ) :
    (hitCandidate dmg brect g cid).1.highScore = g.highScore ∧
    ((hitCandidate dmg brect g cid).1.state = g.state ∨
     (hitCandidate dmg brect g cid).1.state = GState.UPGRADE) := by
  unfold hitCandidate
  cases hf : g.enemies.find? (fun e => e.id == cid) with
  | none => exact ⟨rfl, Or.inl rfl⟩
  | some e =>
    try dsimp only
    by_cases hcol : collideRect brect e.rect = true
    · rw [if_pos hcol]
      by_cases hhp : e.health - dmg ≤ 0
      · rw [if_pos hhp]
        try dsimp only
        cases ho : g.upgradeOracle with
        | nil => exact ⟨rfl, Or.inl rfl⟩
        | cons b rest =>
          cases b
          · exact ⟨rfl, Or.inl rfl⟩
          · exact ⟨rfl, Or.inr rfl⟩
      · rw [if_neg hhp]
        exact ⟨rfl, Or.inl rfl⟩
    · rw [if_neg hcol]
      exact ⟨rfl, Or.inl rfl⟩

/-- The candidate loop never touches the high score or the bullet list, and
can only move the state to UPGRADE. -/
theorem candFold_frame (dmg : ℤ) (brect : Rect) (cs : List QObj) (a : GameSt × Bool) :
    ((cs.foldl (candStep dmg brect) a).1.highScore = a.1.highScore) ∧
    ((cs.foldl (candStep dmg brect) a).1.state = a.1.state ∨
     (cs.foldl (candStep dmg brect) a).1.state = GState.UPGRADE) := by
  induction cs generalizing a with
  | nil => exact ⟨rfl, Or.inl rfl⟩
  | cons c t ih =>
    rw [List.foldl_cons]
    obtain ⟨ih1, ih2⟩ := ih (candStep dmg brect a c)
    obtain ⟨h1, h2⟩ := hitCandidate_frame dmg brect a.1 c.1
    refine ⟨?_, ?_⟩
    · rw [ih1]
      exact h1
    · rcases ih2 with hh | hh
      · rw [hh]
        exact h2
      · exact Or.inr hh

/-- The bullet loop never touches the high score, and can only move the
state to UPGRADE. -/
theorem bulletFold_frame (tree : QuadTree) (bs : List BulletE) (a : GameSt × List BulletE) :
    ((bs.foldl (bulletStep tree) a).1.highScore = a.1.highScore) ∧
    ((bs.foldl (bulletStep tree) a).1.state = a.1.state ∨
     (bs.foldl (bulletStep tree) a).1.state = GState.UPGRADE) := by
  induction bs generalizing a with
  | nil => exact ⟨rfl, Or.inl rfl⟩
  | cons b t ih =>
    rw [List.foldl_cons]
    obtain ⟨ih1, ih2⟩ := ih (bulletStep tree a b)
    have hstep : ((bulletStep tree a b).1.highScore = a.1.highScore) ∧
        ((bulletStep tree a b).1.state = a.1.state ∨
         (bulletStep tree a b).1.state = GState.UPGRADE) := by
      unfold bulletStep
      by_cases hb : b.alive = true
      · rw [if_pos hb]
        exact candFold_frame b.damage b.rect (tree.query b.rect []) (a.1, false)
      · rw [if_neg hb]
        exact ⟨rfl, Or.inl rfl⟩
    refine ⟨?_, ?_⟩
    · rw [ih1]
      exact hstep.1
    · rcases ih2 with hh | hh
      · rw [hh]
        exact hstep.2
      · exact Or.inr hh

/-- The bullet pass never touches the high score, and can only move the
state to UPGRADE (the upgrade-drop interstitial). -/
theorem bulletPhase_frame (g : GameSt) :
    (bulletPhase g).highScore = g.highScore ∧
    ((bulletPhase g).state = g.state ∨ (bulletPhase g).state = GState.UPGRADE) := by
  unfold bulletPhase
  exact bulletFold_frame (buildTree g.enemies) g.bullets (g, [])

/-- The shield-down player pass, as closed formulas: health drops by 20 per
overlapping live enemy, exactly the overlapping enemies are removed, the
score is untouched, and GAME_OVER (with the high-score update) is entered
exactly when at least one hit lands and the resulting health is at or below
zero. -/
theorem playerEnemyPhase_spec (g : GameSt) (hs : g.shieldActive = false) :
    (playerEnemyPhase g).playerHealth
        = g.playerHealth - 20 * ((g.enemies.filter fun e =>
            e.alive && collideRect g.playerRect e.rect).length : ℤ) ∧
    (playerEnemyPhase g).enemies = g.enemies.map (fun e =>
        if e.alive && collideRect g.playerRect e.rect then {e with alive := false} else e) ∧
    (playerEnemyPhase g).score = g.score ∧
    (playerEnemyPhase g).state
        = (if 0 < (g.enemies.filter fun e =>
              e.alive && collideRect g.playerRect e.rect).length ∧
            g.playerHealth - 20 * ((g.enemies.filter fun e =>
              e.alive && collideRect g.playerRect e.rect).length : ℤ) ≤ 0
           then GState.GAME_OVER else g.state) ∧
    (playerEnemyPhase g).highScore
        = (if 0 < (g.enemies.filter fun e =>
              e.alive && collideRect g.playerRect e.rect).length ∧
            g.playerHealth - 20 * ((g.enemies.filter fun e =>
              e.alive && collideRect g.playerRect e.rect).length : ℤ) ≤ 0
           then (if g.score > g.highScore then g.score else g.highScore)
           else g.highScore) := by
  unfold playerEnemyPhase
  rw [if_neg (by simp [hs])]
  dsimp only
  refine ⟨?_, ?_, ?_, ?_, ?_⟩
  · rw [playerHitsFold_health]
  · exact (playerHitsFold_frame _ _).1
  · exact (playerHitsFold_frame _ _).2.2.1
  · exact (playerHitsFold_over _ _).1
  · exact (playerHitsFold_over _ _).2

/-- The routing half of level_complete, as closed formulas over the input
state: the cursor moves exactly on fifth levels, the state becomes STORY
exactly when a fifth level still has a chapter left, and otherwise the next
wave is appended; nothing else changes. -/
theorem levelRoute_spec (h : GameSt) :
    (levelRoute h).level = h.level ∧
    (levelRoute h).playerHealth = h.playerHealth ∧
    (levelRoute h).playerMaxHealth = h.playerMaxHealth ∧
    (levelRoute h).score = h.score ∧
    (levelRoute h).highScore = h.highScore ∧
    (levelRoute h).chapter = (if h.level % 5 = 0 then h.chapter + 1 else h.chapter) ∧
    (levelRoute h).state
        = (if h.level % 5 = 0 ∧ h.chapter + 1 < 5 then GState.STORY else h.state) ∧
    (levelRoute h).enemies
        = (if h.level % 5 = 0 ∧ h.chapter + 1 < 5 then h.enemies
           else h.enemies ++ (spawnGo h.diff h.level 0 (h.diff.enemies + h.level)
              h.nextId h.spawnOracle).1) := by
  unfold levelRoute advanceStory spawnEnemies
  try dsimp only
  by_cases h5 : h.level % 5 = 0
  · rw [if_pos h5]
    by_cases hch : h.chapter + 1 < 5
    · rw [if_pos (decide_eq_true hch)]
      refine ⟨rfl, rfl, rfl, rfl, rfl, ?_, ?_, ?_⟩
      · rw [if_pos h5]
      · rw [if_pos ⟨h5, hch⟩]
      · rw [if_pos ⟨h5, hch⟩]
    · rw [if_neg (fun hx => hch (of_decide_eq_true hx))]
      refine ⟨rfl, rfl, rfl, rfl, rfl, ?_, ?_, ?_⟩
      · rw [if_pos h5]
      · rw [if_neg (fun hx => hch hx.2)]
      · rw [if_neg (fun hx => hch hx.2)]
  · rw [if_neg h5]
    refine ⟨rfl, rfl, rfl, rfl, rfl, ?_, ?_, ?_⟩
    · rw [if_neg h5]
    · rw [if_neg (fun hx => h5 hx.1)]
    · rw [if_neg (fun hx => h5 hx.1)]

/-- Game.level_complete as closed formulas over the input state. -/
theorem levelComplete_spec (g : GameSt) :
    (levelComplete g).level = g.level + 1 ∧
    (levelComplete g).playerHealth = min g.playerMaxHealth (g.playerHealth + 20) ∧
    (levelComplete g).score = g.score ∧
    (levelComplete g).chapter
        = (if (g.level + 1) % 5 = 0 then g.chapter + 1 else g.chapter) ∧
    (levelComplete g).state
        = (if g.level + 1 > 15 then GState.VICTORY
           else if (g.level + 1) % 5 = 0 ∧ g.chapter + 1 < 5 then GState.STORY
           else g.state) ∧
    (levelComplete g).highScore
        = (if g.level + 1 > 15
           then (if g.score > g.highScore then g.score else g.highScore)
           else g.highScore) ∧
    (levelComplete g).enemies
        = (if (g.level + 1) % 5 = 0 ∧ g.chapter + 1 < 5 then
             (if (g.level + 1) % 3 = 0 then g.enemies.map (fun e =>
                if e.alive then {e with speed := e.speed * (11 / 10)} else e)
              else g.enemies)
           else
             (if (g.level + 1) % 3 = 0 then g.enemies.map (fun e =>
                if e.alive then {e with speed := e.speed * (11 / 10)} else e)
              else g.enemies) ++
             (spawnGo g.diff (g.level + 1) 0 (g.diff.enemies + (g.level + 1)) g.nextId
                g.spawnOracle).1) := by
  obtain ⟨r1, r2, r3, r4, r5, r6, r7, r8⟩ := levelRoute_spec (levelBump g)
  unfold levelComplete
  try dsimp only
  by_cases h15 : g.level + 1 > 15
  · rw [if_pos (show (levelRoute (levelBump g)).level > 15 from by
      rw [r1]; exact h15)]
    unfold victoryG
    try dsimp only
    refine ⟨?_, ?_, ?_, ?_, ?_, ?_, ?_⟩
    · exact r1.trans rfl
    · exact r2.trans rfl
    · exact r4.trans rfl
    · exact r6.trans rfl
    · rw [if_pos h15]
    · rw [if_pos h15, r4, r5]
      exact rfl
    · rw [r8]
      exact rfl
  · rw [if_neg (show ¬((levelRoute (levelBump g)).level > 15) from by
      rw [r1]; exact h15)]
    refine ⟨?_, ?_, ?_, ?_, ?_, ?_, ?_⟩
    · exact r1.trans rfl
    · exact r2.trans rfl
    · exact r4.trans rfl
    · exact r6.trans rfl
    · rw [r7, if_neg h15]
      exact rfl
    · rw [r5, if_neg h15]
      exact rfl
    · rw [r8]
      exact rfl

/-- The level check preserves the score and either leaves state and high
score alone, or routes to STORY (high score untouched), or enters VICTORY
raising the high score to the current score. -/
theorem levelCheck_frame (h : GameSt) :
    (levelCheck h).score = h.score ∧
    (((levelCheck h).state = h.state ∧ (levelCheck h).highScore = h.highScore) ∨
     ((levelCheck h).state = GState.STORY ∧ (levelCheck h).highScore = h.highScore) ∨
     ((levelCheck h).state = GState.VICTORY ∧
      (levelCheck h).highScore
        = (if h.score > h.highScore then h.score else h.highScore))) := by
  unfold levelCheck
  by_cases he : (h.enemies.filter fun e => e.alive).length = 0
  · rw [if_pos he]
    obtain ⟨l1, l2, l3, l4, l5, l6, l7⟩ := levelComplete_spec h
    refine ⟨l3, ?_⟩
    by_cases h15 : h.level + 1 > 15
    · exact Or.inr (Or.inr (by rw [l5, l6, if_pos h15, if_pos h15]; exact ⟨rfl, rfl⟩))
    · by_cases hst : (h.level + 1) % 5 = 0 ∧ h.chapter + 1 < 5
      · refine Or.inr (Or.inl ?_)
        rw [l5, l6, if_neg h15, if_neg h15, if_pos hst]
        exact ⟨rfl, rfl⟩
      · refine Or.inl ?_
        rw [l5, l6, if_neg h15, if_neg h15, if_neg hst]
        exact ⟨rfl, rfl⟩
  · rw [if_neg he]
    exact ⟨rfl, Or.inl ⟨rfl, rfl⟩⟩

/-- The player pass preserves the score and either leaves state and high
score alone or enters GAME_OVER raising the high score to the current score. -/
theorem playerEnemyPhase_frame (g : GameSt) :
    (playerEnemyPhase g).score = g.score ∧
    (((playerEnemyPhase g).state = g.state ∧
      (playerEnemyPhase g).highScore = g.highScore) ∨
     ((playerEnemyPhase g).state = GState.GAME_OVER ∧
      (playerEnemyPhase g).highScore
        = (if g.score > g.highScore then g.score else g.highScore))) := by
  by_cases hs : g.shieldActive = true
  · unfold playerEnemyPhase
    rw [if_pos hs]
    exact ⟨rfl, Or.inl ⟨rfl, rfl⟩⟩
  · have hs2 : g.shieldActive = false := by
      revert hs
      cases g.shieldActive <;> simp
    obtain ⟨p1, p2, p3, p4, p5⟩ := playerEnemyPhase_spec g hs2
    refine ⟨p3, ?_⟩
    by_cases hC : 0 < (g.enemies.filter fun e =>
          e.alive && collideRect g.playerRect e.rect).length ∧
        g.playerHealth - 20 * ((g.enemies.filter fun e =>
          e.alive && collideRect g.playerRect e.rect).length : ℤ) ≤ 0
    · refine Or.inr ?_
      rw [p4, p5, if_pos hC, if_pos hC]
      exact ⟨rfl, rfl⟩
    · refine Or.inl ?_
      rw [p4, p5, if_neg hC, if_neg hC]
      exact ⟨rfl, rfl⟩

/-- The spawn loop produces exactly the requested number of entities. -/
theorem spawnGo_length (d : Diff) (lvl : ℕ) (rem : ℕ) :
    ∀ (i nid : ℕ) (orc : List (ℤ × ℤ)), (spawnGo d lvl i rem nid orc).1.length = rem := by
  induction rem with
  | zero =>
    intro i nid orc
    rfl
  | succ r ih =>
    intro i nid orc
    simp only [spawnGo]
    by_cases hb : (lvl % 5 == 0 && i == 0) = true
    · rw [if_pos hb]
      simp only [List.length_cons, ih]
    · rw [if_neg hb]
      simp only [List.length_cons, ih]

/-- Away from the slot (level multiple of 5, index 0) the spawn loop only
produces regular enemies. -/
theorem spawnGo_no_boss (d : Diff) (lvl : ℕ) (rem : ℕ) :
    ∀ (i nid : ℕ) (orc : List (ℤ × ℤ)), (lvl % 5 = 0 → i ≠ 0) →
      ∀ e ∈ (spawnGo d lvl i rem nid orc).1, e.isBoss = false := by
  induction rem with
  | zero =>
    intro i nid orc hcond e he
    simp only [spawnGo, List.not_mem_nil] at he
  | succ r ih =>
    intro i nid orc hcond e he
    simp only [spawnGo] at he
    have hb : (lvl % 5 == 0 && i == 0) = false := by
      by_cases h5 : lvl % 5 = 0
      · have hi := hcond h5
        simp [h5, hi]
      · simp [h5]
    rw [if_neg (by simp [hb])] at he
    try dsimp only at he
    rcases List.mem_cons.mp he with rfl | hmem
    · rfl
    · exact ih (i + 1) _ _ (fun _ => Nat.succ_ne_zero i) e hmem

/-- On a fifth level the spawn loop starts with the boss. -/
theorem spawnGo_head_boss (d : Diff) (lvl : ℕ) (r nid : ℕ) (orc : List (ℤ × ℤ))
    (h5 : lvl % 5 = 0) :
    (spawnGo d lvl 0 (r + 1) nid orc).1
      = mkBoss d nid :: (spawnGo d lvl 1 r (nid + 1) orc).1 := by
  simp only [spawnGo]
  rw [if_pos (by simp [h5])]

/-! Claim theorems. -/

/-- C1 (code bug): at a state where two live bullets overlap one enemy of
health 10 (damage 10 each), the bullet pass of Game.check_collisions awards
the 10-point kill score twice, total 20: the quadtree built at the start of
the pass still holds the enemy object after the first bullet killed it, so
the second bullet hits the dead enemy again and re-enters the kill branch.
The claim that score is awarded exactly once per destroyed enemy fails. -/
theorem C1_double_score :
    (bulletPhase c1State).score = 20 ∧
    ((bulletPhase c1State).enemies.map fun e => e.alive) = [false] ∧
    (c1State.enemies.map fun e => e.health) = [10] ∧
    (c1State.bullets.map fun b => b.damage) = [10, 10] := by decide

/-- C2 counterexample: with a speed-upgrade step of 6 pixels (speed 5 times
multiplier 1.2) and the left key held, the 63rd Player.update moves the rect
from left = 3 to left = -3: the rect leaves [0, screen_width], because the
movement is gated by a boundary check on the pre-move rect, not clamped. -/
theorem C2_counterexample :
    (((playerUpdate keysLeft 6)^[63]) playerInit).x = -3 ∧
    (((playerUpdate keysLeft 6)^[63]) playerInit).x < 0 := by decide

/-- C2 amended: after Player.update the rect can protrude past each screen
bound by at most step - 1 pixels, where step is the per-move displacement
speed * speed-upgrade: the window [1 - step, 799 + step] x [1 - step, 599 + step]
for (left, top) is invariant under updates for every key combination. -/
theorem C2_player_within_step_of_bounds (keys : Keys) (step : ℕ) (p : PlayerM)
    (hx1 : 1 - (step : ℤ) ≤ p.x) (hx2 : p.x + 50 ≤ 799 + step)
    (hy1 : 1 - (step : ℤ) ≤ p.y) (hy2 : p.y + 40 ≤ 599 + step) :
    1 - (step : ℤ) ≤ (playerUpdate keys step p).x ∧
    (playerUpdate keys step p).x + 50 ≤ 799 + step ∧
    1 - (step : ℤ) ≤ (playerUpdate keys step p).y ∧
    (playerUpdate keys step p).y + 40 ≤ 599 + step := by
  unfold playerUpdate
  rw [shieldTick_x, shieldTick_y]
  simp only [playerMove]
  split_ifs <;>
    simp_all only [Bool.and_eq_true, decide_eq_true_eq, true_and, and_true,
      not_and, not_lt, not_le] <;>
    omega

theorem C2_player_within_step_of_bounds_witness :
    1 - ((6 : ℕ) : ℤ) ≤ (playerUpdate keysLeft 6 playerInit).x := by
  have h := C2_player_within_step_of_bounds keysLeft 6 playerInit
    (by decide) (by decide) (by decide) (by decide)
  exact h.1

/-- C3 (code bug): a query with no false negatives fails: object 4 is
accepted by insert (into the NW child after the root overflows), its rect
strictly overlaps the query rect, yet query returns the empty list, because
the query rect lies strictly right of the midline so the NW child holding
the object is pruned. -/
theorem C3_query_false_negative :
    (c3Tree4.insert c3Obj).2 = true ∧
    collideRect c3QueryRect c3Obj.2 = true ∧
    c3Tree.query c3QueryRect [] = [] := by decide

/-- C4 counterexample: a boss-fired bullet (speed negated to -10) spawned at
the bottom edge of the screen is still alive three updates later with its
bottom at 645, below the 600-pixel play area: downward bullets are never
destroyed by the off-screen check of Bullet.update. -/
theorem C4_counterexample :
    ((bulletUpdate^[3]) c4Bullet).alive = true ∧
    ((bulletUpdate^[3]) c4Bullet).y + 15 > 600 := by decide

/-- C4 amended: Bullet.update kills a live bullet exactly when its new bottom
has passed above the top bound; hence an upward player bullet dies when it
exits the top, while a downward (boss-fired) bullet whose bottom is not above
the top bound survives every update and persists after leaving the bottom of
the screen. -/
theorem C4_offscreen_destruction (b : BulletB) (halive : b.alive = true) :
    (b.speed < 0 → 0 ≤ b.y + 15 → (bulletUpdate b).alive = true) ∧
    ((bulletUpdate b).alive = false ↔ b.y - b.speed + 15 < 0) := by
  unfold bulletUpdate
  dsimp only
  split_ifs with h <;> simp_all <;> omega

theorem C4_offscreen_destruction_witness :
    (bulletUpdate c4Bullet).alive = true ∧
    ((bulletUpdate c4Bullet).alive = false ↔ c4Bullet.y - c4Bullet.speed + 15 < 0) := by
  have h := C4_offscreen_destruction c4Bullet (by decide)
  exact ⟨h.1 (by decide) (by decide), h.2⟩

/-- C5 counterexample: the fire-rate gate samples the wall clock
(pygame.time.get_ticks): the same player state (last shot at 0, fire rate 1)
refuses to fire when the sample reads 100 ms and fires when it reads 300 ms,
so shooting is not a function of accumulated tick counts. -/
theorem C5_fire_gate_wall_clock :
    (PlayerM.shoot 100 playerInit).1 = none ∧
    ((PlayerM.shoot 300 playerInit).1).isSome = true := by
  constructor <;> norm_num [PlayerM.shoot, playerInit]

/-- C5 amended: the shield timer and the boss attack timer are driven by
accumulated tick-duration milliseconds, hence deterministic under fixed tick
counts; with the float accumulation of 1000 / 60 the shield deactivates
exactly on the 181st update after activation (180 steps reach only
2999.999999999995 ms of the 3000 ms duration) and a fresh boss first signals
an attack exactly on its 61st update (60 steps reach only 999.9999999999991
of the 1000 ms delay); the fire-rate gate, by contrast, is wall-clock driven
(see the counterexample). -/
theorem C5_tick_driven_timers :
    ((playerUpdate keysNone 5)^[180] {playerInit with shieldActive := true}).shieldActive
      = true ∧
    ((playerUpdate keysNone 5)^[181] {playerInit with shieldActive := true}).shieldActive
      = false ∧
    bossFireAt 60 = true ∧
    (List.range 60).all (fun k => !(bossFireAt k)) = true := by decide

/-- C8: while the shield is active the player pass is skipped entirely (zero
damage, nothing removed); while it is inactive, every enemy overlapping the
player is destroyed and each such collision costs exactly 20 health, and the
state transitions to GAME_OVER exactly when a hit lands and health thereby
drops to or below zero. -/
theorem C8_shield_and_collision (g : GameSt) :
    (g.shieldActive = true → playerEnemyPhase g = g) ∧
    (g.shieldActive = false →
      (playerEnemyPhase g).playerHealth
          = g.playerHealth - 20 * ((g.enemies.filter fun e =>
              e.alive && collideRect g.playerRect e.rect).length : ℤ) ∧
      (playerEnemyPhase g).enemies = g.enemies.map (fun e =>
          if e.alive && collideRect g.playerRect e.rect then {e with alive := false} else e) ∧
      (playerEnemyPhase g).score = g.score ∧
      (playerEnemyPhase g).state
          = (if 0 < (g.enemies.filter fun e =>
                e.alive && collideRect g.playerRect e.rect).length ∧
              g.playerHealth - 20 * ((g.enemies.filter fun e =>
                e.alive && collideRect g.playerRect e.rect).length : ℤ) ≤ 0
             then GState.GAME_OVER else g.state)) := by
  constructor
  · intro h
    unfold playerEnemyPhase
    rw [if_pos h]
  · intro h
    obtain ⟨h1, h2, h3, h4, h5⟩ := playerEnemyPhase_spec g h
    exact ⟨h1, h2, h3, h4⟩

theorem C8_shield_and_collision_witness :
    playerEnemyPhase c8On = c8On ∧
    (playerEnemyPhase c8Off).playerHealth = 0 ∧
    (playerEnemyPhase c8Off).state = GState.GAME_OVER := by
  refine ⟨(C8_shield_and_collision c8On).1 rfl, ?_, ?_⟩
  · rw [((C8_shield_and_collision c8Off).2 rfl).1]
    decide
  · rw [((C8_shield_and_collision c8Off).2 rfl).2.2.2]
    decide

/-- C6: level completion is triggered exactly when the (live) enemy set is
empty at the end of the collision pass, and level_complete then increments
the level, heals the player by 20 capped at max health, scales live enemy
speeds by 1.1 on every third level, moves the chapter cursor and routes to
Story on every fifth level when a chapter remains (spawning the next wave
otherwise), and forces VICTORY (updating the high score) whenever the level
counter exceeds 15, regardless of the other routing. -/
theorem C6_level_completion (g : GameSt) :
    checkCollisions g =
      (if ((playerEnemyPhase (bulletPhase g)).enemies.filter fun e => e.alive).length = 0
       then levelComplete (playerEnemyPhase (bulletPhase g))
       else playerEnemyPhase (bulletPhase g)) ∧
    (levelComplete g).level = g.level + 1 ∧
    (levelComplete g).playerHealth = min g.playerMaxHealth (g.playerHealth + 20) ∧
    (levelComplete g).score = g.score ∧
    (levelComplete g).chapter
        = (if (g.level + 1) % 5 = 0 then g.chapter + 1 else g.chapter) ∧
    (levelComplete g).state
        = (if g.level + 1 > 15 then GState.VICTORY
           else if (g.level + 1) % 5 = 0 ∧ g.chapter + 1 < 5 then GState.STORY
           else g.state) ∧
    (levelComplete g).highScore
        = (if g.level + 1 > 15
           then (if g.score > g.highScore then g.score else g.highScore)
           else g.highScore) ∧
    (levelComplete g).enemies
        = (if (g.level + 1) % 5 = 0 ∧ g.chapter + 1 < 5 then
             (if (g.level + 1) % 3 = 0 then g.enemies.map (fun e =>
                if e.alive then {e with speed := e.speed * (11 / 10)} else e)
              else g.enemies)
           else
             (if (g.level + 1) % 3 = 0 then g.enemies.map (fun e =>
                if e.alive then {e with speed := e.speed * (11 / 10)} else e)
              else g.enemies) ++
             (spawnGo g.diff (g.level + 1) 0 (g.diff.enemies + (g.level + 1)) g.nextId
                g.spawnOracle).1) :=
  ⟨rfl, levelComplete_spec g⟩

/-- C7: a wave consists of exactly base-count + level entities; the first is
the Boss exactly on levels that are multiples of 5, with health 50 times the
difficulty health multiplier, and no boss spawns on other levels.  At Normal
difficulty, level 1 spawns 9 entities, none a boss, and the first entity of
level 5 has health 100. -/
theorem C7_wave_spawning (g : GameSt) :
    (spawnEnemies g).enemies
        = g.enemies ++ (spawnGo g.diff g.level 0 (g.diff.enemies + g.level) g.nextId
            g.spawnOracle).1 ∧
    (spawnGo g.diff g.level 0 (g.diff.enemies + g.level) g.nextId g.spawnOracle).1.length
        = g.diff.enemies + g.level ∧
    (g.level % 5 = 0 → 0 < g.diff.enemies + g.level →
      (spawnGo g.diff g.level 0 (g.diff.enemies + g.level) g.nextId g.spawnOracle).1.head?
          = some (mkBoss g.diff g.nextId) ∧
      (mkBoss g.diff g.nextId).isBoss = true ∧
      (mkBoss g.diff g.nextId).health = 50 * g.diff.health) ∧
    (g.level % 5 ≠ 0 →
      ∀ e ∈ (spawnGo g.diff g.level 0 (g.diff.enemies + g.level) g.nextId
          g.spawnOracle).1, e.isBoss = false) ∧
    ((spawnGo NORMAL 1 0 (NORMAL.enemies + 1) 0 []).1.length = 9 ∧
     (spawnGo NORMAL 1 0 (NORMAL.enemies + 1) 0 []).1.all (fun e => !e.isBoss) = true) ∧
    ((spawnGo NORMAL 5 0 (NORMAL.enemies + 5) 0 []).1.head?.map (fun e => e.health)
        = some 100) := by
  refine ⟨rfl, spawnGo_length _ _ _ _ _ _, ?_, ?_, by decide, by decide⟩
  · intro h5 hpos
    obtain ⟨c, hc⟩ : ∃ c, g.diff.enemies + g.level = c + 1 :=
      ⟨g.diff.enemies + g.level - 1, by omega⟩
    rw [hc, spawnGo_head_boss _ _ _ _ _ h5]
    exact ⟨rfl, rfl, rfl⟩
  · intro h5 e he
    exact spawnGo_no_boss _ _ _ 0 _ _ (fun hx => absurd hx h5) e he

theorem C7_wave_spawning_witness :
    (spawnGo NORMAL 5 0 (NORMAL.enemies + 5) 0 []).1.head? = some (mkBoss NORMAL 0) ∧
    (∀ e ∈ (spawnGo NORMAL 1 0 (NORMAL.enemies + 1) 0 []).1, e.isBoss = false) := by
  have h5 := (C7_wave_spawning c7g5).2.2.1 (by decide) (by decide)
  have h1 := (C7_wave_spawning c7g1).2.2.2.1 (by decide)
  exact ⟨h5.1, h1⟩

/-- C9: from the Playing state, whenever the collision pass ends in
GAME_OVER or VICTORY the session high score has been raised to the final
score if that score beats it (and kept otherwise); and in every case the
high score either stays unchanged or becomes the final score, the latter
only when that score beats the old high score. -/
theorem C9_terminal_high_score (g : GameSt) (hg : g.state = GState.GAME) :
    (((checkCollisions g).state = GState.GAME_OVER ∨
      (checkCollisions g).state = GState.VICTORY) →
      (checkCollisions g).highScore =
        (if (checkCollisions g).score > g.highScore then (checkCollisions g).score
         else g.highScore)) ∧
    ((checkCollisions g).highScore = g.highScore ∨
     ((checkCollisions g).score > g.highScore ∧
      (checkCollisions g).highScore = (checkCollisions g).score)) := by
  unfold checkCollisions
  obtain ⟨b1, b2⟩ := bulletPhase_frame g
  obtain ⟨p_sc, p_cases⟩ := playerEnemyPhase_frame (bulletPhase g)
  obtain ⟨lc_sc, lc_cases⟩ := levelCheck_frame (playerEnemyPhase (bulletPhase g))
  have hsc : (levelCheck (playerEnemyPhase (bulletPhase g))).score = (bulletPhase g).score := by
    rw [lc_sc, p_sc]
  constructor
  · intro hterm
    rw [hsc]
    rcases lc_cases with ⟨hcs, hch⟩ | ⟨hcs, hch⟩ | ⟨hcs, hch⟩
    · rcases p_cases with ⟨hbs, hbh⟩ | ⟨hbs, hbh⟩
      · exfalso
        rcases hterm with ht | ht <;>
          · rw [hcs, hbs] at ht
            rcases b2 with hA | hA <;> rw [hA] at ht
            · rw [hg] at ht
              exact GState.noConfusion ht
            · exact GState.noConfusion ht
      · rw [hch, hbh, b1]
    · exfalso
      rcases hterm with ht | ht <;> (rw [hcs] at ht; exact GState.noConfusion ht)
    · rcases p_cases with ⟨hbs, hbh⟩ | ⟨hbs, hbh⟩
      · rw [hch, p_sc, hbh, b1]
      · rw [hch, p_sc, hbh, b1]
        exact highMax_idem _ _
  · have hkey : (levelCheck (playerEnemyPhase (bulletPhase g))).highScore = g.highScore ∨
        (levelCheck (playerEnemyPhase (bulletPhase g))).highScore
          = (if (bulletPhase g).score > g.highScore then (bulletPhase g).score
             else g.highScore) := by
      rcases lc_cases with ⟨hcs, hch⟩ | ⟨hcs, hch⟩ | ⟨hcs, hch⟩ <;>
        rcases p_cases with ⟨hbs, hbh⟩ | ⟨hbs, hbh⟩
      · exact Or.inl (by rw [hch, hbh, b1])
      · exact Or.inr (by rw [hch, hbh, b1])
      · exact Or.inl (by rw [hch, hbh, b1])
      · exact Or.inr (by rw [hch, hbh, b1])
      · exact Or.inr (by rw [hch, p_sc, hbh, b1])
      · exact Or.inr (by rw [hch, p_sc, hbh, b1]; exact highMax_idem _ _)
    rcases hkey with hk | hk
    · exact Or.inl hk
    · by_cases hgt : (bulletPhase g).score > g.highScore
      · refine Or.inr ⟨by rw [hsc]; exact hgt, ?_⟩
        rw [hk, if_pos hgt, hsc]
      · refine Or.inl ?_
        rw [hk, if_neg hgt]

theorem C9_terminal_high_score_witness :
    (checkCollisions c9End).state = GState.GAME_OVER ∧
    (checkCollisions c9End).highScore = 30 := by
  have h := (C9_terminal_high_score c9End rfl).1 (Or.inl (by decide))
  refine ⟨by decide, ?_⟩
  rw [h]
  decide

/-- C10 counterexample: the effective attack delay is not halved: a fresh
boss does not spawn a bullet on tick 30 (500 ms), because the float attack
timer first reaches the 1000 ms delay only on the 61st Boss.update. -/
theorem C10_no_halved_delay : gameTickFireAt 29 = false := by decide

/-- C10 amended: in the Playing state a boss is updated twice per tick (once
via the all-sprites group, once in the boss-attack loop): in the entrance
pattern, away from the transition threshold and the attack delay, one tick
advances the pattern timer by 2, descends by 2 pixels, and adds the float
1000 / FPS ms step to the attack timer twice.  The effective attack delay is
nevertheless not halved: the timer first reaches 1000 ms on the 61st update,
which is the all-sprites call whose signal is discarded, so the first boss
bullet is spawned only on tick 61 (the second crossing, on an attack-loop
call), i.e. after roughly 1017 ms. -/
theorem C10_boss_double_update (sinF cosF : ℤ → ℚ) (b : BossSt)
    (hp : b.pattern = 0) (hy : b.y + 2 ≤ 50)
    (ha1 : (flAdd b.attackTimer tickMs).blt (Dyadic.ofInt 1000) = true)
    (ha2 : (flAdd (flAdd b.attackTimer tickMs) tickMs).blt (Dyadic.ofInt 1000) = true) :
    (gameTickBoss sinF cosF b).1.patternTimer = b.patternTimer + 2 ∧
    (gameTickBoss sinF cosF b).1.y = b.y + 2 ∧
    (gameTickBoss sinF cosF b).1.attackTimer = flAdd (flAdd b.attackTimer tickMs) tickMs ∧
    (gameTickBoss sinF cosF b).2 = false ∧
    (List.range 60).all (fun k => !(gameTickFireAt k)) = true ∧
    gameTickFireAt 60 = true := by
  have e1 := bossUpdate_entrance sinF cosF b hp (by omega) ha1
  have e2 := bossUpdate_entrance sinF cosF
    {b with patternTimer := b.patternTimer + 1,
            attackTimer := flAdd b.attackTimer tickMs, y := b.y + 1}
    hp (by dsimp only; omega) (by dsimp only; exact ha2)
  have et : gameTickBoss sinF cosF b =
      ({b with patternTimer := b.patternTimer + 1 + 1,
               attackTimer := flAdd (flAdd b.attackTimer tickMs) tickMs,
               y := b.y + 1 + 1}, false) := by
    unfold gameTickBoss
    rw [e1]
    exact e2
  refine ⟨?_, ?_, ?_, ?_, by decide, by decide⟩ <;> rw [et] <;>
    first
      | rfl
      | (dsimp only; omega)

theorem C10_boss_double_update_witness :
    (gameTickBoss (fun _ => 0) (fun _ => 0) freshBoss).1.patternTimer
        = freshBoss.patternTimer + 2 ∧
    (gameTickBoss (fun _ => 0) (fun _ => 0) freshBoss).1.y = freshBoss.y + 2 := by
  have h := C10_boss_double_update (fun _ => 0) (fun _ => 0) freshBoss
    (by decide) (by decide) (by decide) (by decide)
  exact ⟨h.1, h.2.1⟩

end GameVer

